import Mathlib

/-!
Verification development for the HASLUN MissionSystem module: the
telemetry-to-mission scoring engine that turns an ordered bar series into
five bounded vessel stats, ranks five fixed mission archetypes against the
resulting environment snapshot, and creates/logs persistable mission
records.

Embedding conventions:
* JavaScript numbers are modelled as exact rationals plus an explicit `NaN`
  value (`JNum`); IEEE-754 rounding of doubles is idealised away.
* An optional bar field (`null`/`undefined` in the source) is
  `Option JNum`, so `none` is an absent field and `some .nan` is a present
  `NaN` value; the two are distinguished because the source distinguishes
  them (`!= null` versus `isNaN`).
* `Date.now`, `Math.random`, ISO timestamp formatting and the storage port
  are abstracted into explicit string parameters; `localStorage` is
  modelled as the mission collection value itself (functions return the
  new collection instead of writing it).
* Division in the source is always guarded to a nonzero denominator except
  for Hull's anchor distance, where a zero close is excluded by the
  validity hypotheses used in the theorems; the unreachable zero branches
  of `jdiv` return `.nan`.
-/

set_option allowUnsafeReducibility true in
attribute [semireducible] Rat.add Rat.mul Rat.sub Rat.inv Rat.div Rat.blt

set_option maxRecDepth 100000

namespace MissionSystem

/-- A JavaScript number: either `NaN` or an exact rational. -/
inductive JNum where
  | nan : JNum
  | num : ℚ → JNum
deriving DecidableEq

/-- An optional bar field: `none` is `null`/`undefined`, `some .nan` is a
present `NaN`. -/
abbrev JVal := Option JNum

/-- Extracts a finite numeric value: the source guard
`v != null && !isNaN(v)`. -/
def toQ? : JVal → Option ℚ
  | some (.num q) => some q
  | _ => none

/-- JS addition (`NaN` propagates). -/
def jadd : JNum → JNum → JNum
  | .num a, .num b => .num (a + b)
  | _, _ => .nan

/-- JS subtraction (`NaN` propagates). -/
def jsub : JNum → JNum → JNum
  | .num a, .num b => .num (a - b)
  | _, _ => .nan

/-- JS division (`NaN` propagates). Division by zero yields `.nan`; every
division in the source is guarded to a nonzero denominator, so that branch
is unreachable in the modelled code paths. -/
def jdiv : JNum → JNum → JNum
  | .num a, .num b => if b = 0 then .nan else .num (a / b)
  | _, _ => .nan

/-- JS multiplication by a plain constant (`NaN` propagates). -/
def jmulq : JNum → ℚ → JNum
  | .num a, q => .num (a * q)
  | .nan, _ => .nan

/-- `Math.min` (returns `NaN` if either argument is `NaN`). -/
def jmin : JNum → JNum → JNum
  | .num a, .num b => .num (min a b)
  | _, _ => .nan

/-- `Math.max` (returns `NaN` if either argument is `NaN`). -/
def jmax : JNum → JNum → JNum
  | .num a, .num b => .num (max a b)
  | _, _ => .nan

/-- JS comparison `v < c` (`false` when `v` is `NaN`). -/
def jlt : JNum → ℚ → Bool
  | .nan, _ => false
  | .num a, c => decide (a < c)

/-- JS comparison `v > c` (`false` when `v` is `NaN`). -/
def jgt : JNum → ℚ → Bool
  | .nan, _ => false
  | .num a, c => decide (c < a)

/-- JS test `v >= 0` (`false` when `v` is `NaN`), as used by
`countSignFlips`. -/
def nonneg : JNum → Bool
  | .nan => false
  | .num a => decide (0 ≤ a)

/-- `Math.round`: rounds half toward positive infinity. -/
def roundQ (q : ℚ) : ℤ := ⌊q + 1/2⌋

/-- `Math.round` lifted to JS numbers (`NaN` propagates). -/
def jround : JNum → JNum
  | .nan => .nan
  | .num q => .num ((roundQ q : ℤ) : ℚ)

/-- Mirrors `clamp(value, min, max) = Math.max(min, Math.min(max, value))`. -/
def jclamp (value : JNum) (lo hi : ℚ) : JNum := jmax (.num lo) (jmin (.num hi) value)

/-- Mirrors `normalize(value, min, max)`: linear rescale to 0..100, clamped;
returns 50 when the range is degenerate. -/
def normalize (value : JNum) (lo hi : ℚ) : JNum :=
  if hi = lo then .num 50
  else jmax (.num 0) (jmin (.num 100) (jmulq (jdiv (jsub value (.num lo)) (.num (hi - lo))) 100))

/-- Mirrors `linearRegressionSlope(values)`: ordinary least-squares slope of
the values against their index; 0 for fewer than 2 points. -/
def linearRegressionSlope (values : List ℚ) : ℚ :=
  let n := values.length
  if n < 2 then 0
  else
    let s := values.enum.foldl
      (fun acc p =>
        (acc.1 + (p.1 : ℚ), acc.2.1 + p.2, acc.2.2.1 + (p.1 : ℚ) * p.2,
          acc.2.2.2 + (p.1 : ℚ) * (p.1 : ℚ)))
      ((0 : ℚ), (0 : ℚ), (0 : ℚ), (0 : ℚ))
    ((n : ℚ) * s.2.2.1 - s.1 * s.2.1) / ((n : ℚ) * s.2.2.2 - s.1 * s.1)

/-- Mirrors `countSignFlips(values)`: adjacent sign changes, where the sign
test is `v >= 0` (so `NaN` counts as negative, exactly as in JS). -/
def countSignFlips : List JNum → ℕ
  | [] => 0
  | [_] => 0
  | a :: b :: rest => (if nonneg b != nonneg a then 1 else 0) + countSignFlips (b :: rest)

/-- A rendering of `Number.prototype.toFixed(d)` for the rationale strings
(the exact tie-breaking of `toFixed` on doubles is abstracted; no claim
inspects these digits). -/
def fmtFixed (d : ℕ) (v : JNum) : String :=
  match v with
  | .nan => "NaN"
  | .num q =>
    let scaled : ℤ := roundQ (q * (10 : ℚ) ^ d)
    let sign := if scaled < 0 then "-" else ""
    let a := scaled.natAbs
    if d = 0 then sign ++ toString a
    else
      let fs := toString (a % 10 ^ d)
      let pad := String.mk (List.replicate (d - fs.length) '0')
      sign ++ toString (a / 10 ^ d) ++ "." ++ pad ++ fs

/-- One sampled bar of market plus indicator data. `time` and `close` are
required by the data model; every other field is optional
(`null`/`undefined` modelled as `none`). The thirty band levels `A1`..`F5`
are explicit fields, mirroring the keys read by `computeThreat`. -/
structure Bar where
  time : ℤ := 0
  close : ℚ
  open_ : JVal := none
  high : JVal := none
  low : JVal := none
  volume : JVal := none
  volumeMA : JVal := none
  kernelRegression : JVal := none
  G200 : JVal := none
  histogram : JVal := none
  buy : JVal := none
  sell : JVal := none
  A1 : JVal := none
  A2 : JVal := none
  A3 : JVal := none
  A4 : JVal := none
  A5 : JVal := none
  B1 : JVal := none
  B2 : JVal := none
  B3 : JVal := none
  B4 : JVal := none
  B5 : JVal := none
  C1 : JVal := none
  C2 : JVal := none
  C3 : JVal := none
  C4 : JVal := none
  C5 : JVal := none
  D1 : JVal := none
  D2 : JVal := none
  D3 : JVal := none
  D4 : JVal := none
  D5 : JVal := none
  E1 : JVal := none
  E2 : JVal := none
  E3 : JVal := none
  E4 : JVal := none
  E5 : JVal := none
  F1 : JVal := none
  F2 : JVal := none
  F3 : JVal := none
  F4 : JVal := none
  F5 : JVal := none
deriving DecidableEq

/-- Result of one stat computator: `{ value, why }`. -/
structure StatResult where
  value : JNum
  why : String
deriving DecidableEq

/-- The valid `kernelRegression` sub-sequence used by `computeHull`
(order-preserving, skipping absent or `NaN` KRE). -/
def kreSeries (bars : List Bar) : List ℚ :=
  bars.filterMap fun b => toQ? b.kernelRegression

/-- The aligned `close - kernelRegression` deviation sequence shared by
`computeHull` and `computeFuel` (only bars with a valid KRE; `close` is a
required field). -/
def kreDeviations (bars : List Bar) : List ℚ :=
  bars.filterMap fun b => (toQ? b.kernelRegression).map fun k => b.close - k

/-- Close of the most recent bar (`bars[n-1].close`). -/
def latestClose? (bars : List Bar) : Option ℚ :=
  bars.getLast?.map (·.close)

/-- First valid `G200` of a list (the source loop body, applied to the
reversed bar list). -/
def g200Scan : List Bar → Option ℚ
  | [] => none
  | b :: rest =>
    match toQ? b.G200 with
    | some g => some g
    | none => g200Scan rest

/-- Backwards scan for the most recent valid `G200`. -/
def latestG200? (bars : List Bar) : Option ℚ :=
  g200Scan bars.reverse

/-- Mirrors `computeHull(bars)`: trend stability from KRE slope, chop
penalty from deviation sign flips, and a G200 anchor score. -/
def computeHull (bars : List Bar) : StatResult :=
  if bars.length < 5 then ⟨.num 50, "Insufficient data"⟩
  else
    match latestClose? bars with
    | none => ⟨.num 50, "Insufficient data"⟩
    | some latestClose =>
      let kreS := kreSeries bars
      let kreSlope := if 2 ≤ kreS.length then linearRegressionSlope kreS else 0
      let slopeScore := min (|kreSlope| * 500) 50
      let devs := kreDeviations bars
      let chopFlips := if 2 ≤ devs.length then countSignFlips (devs.map JNum.num) else 0
      let chopPenalty := min ((chopFlips : ℚ) * 3) 30
      let latestG200 := (latestG200? bars).getD latestClose
      let anchorDist := |(latestClose - latestG200) / latestClose|
      let anchorScore := max 0 (30 - anchorDist * 200)
      let rawHull := 40 + slopeScore + anchorScore - chopPenalty
      let slopeDir :=
        if 1/1000 < kreSlope then "upward"
        else if kreSlope < -(1/1000) then "downward" else "flat"
      let chopDesc :=
        if chopFlips ≤ 5 then "low chop"
        else if chopFlips ≤ 10 then "moderate chop" else "high chop"
      let anchorDesc :=
        if anchorDist < 3/100 then "close to G200"
        else if anchorDist < 8/100 then "moderate distance from G200" else "far from G200"
      ⟨jclamp (jround (.num rawHull)) 0 100,
        "KRE slope " ++ slopeDir ++ "; " ++ chopDesc ++ " (" ++ toString chopFlips
          ++ " flips); " ++ anchorDesc⟩

/-- The ATR-proxy terms `(high - low)/close` over bars where `high` and
`low` are present and `close` is nonzero. Note the source checks only
`!= null` on `high`/`low`, so a present `NaN` flows into the term. -/
def atrTerms (bars : List Bar) : List JNum :=
  bars.filterMap fun b =>
    match b.high, b.low with
    | some hi, some lo => if b.close ≠ 0 then some (jdiv (jsub hi lo) (.num b.close)) else none
    | _, _ => none

/-- The `|histogram|` values used by `computeFirepower`, with the v1.1 NaN
guard (`!= null && !isNaN`). -/
def fpHistVals (bars : List Bar) : List ℚ :=
  bars.filterMap fun b => (toQ? b.histogram).map fun q => |q|

/-- Mirrors `computeFirepower(bars)`: 60% ATR-proxy, 40% mean absolute
histogram magnitude. -/
def computeFirepower (bars : List Bar) : StatResult :=
  if bars.length < 5 then ⟨.num 50, "Insufficient data"⟩
  else
    let terms := atrTerms bars
    let avgATR : JNum :=
      if 0 < terms.length then jdiv (terms.foldl jadd (.num 0)) (.num terms.length)
      else .num (3/100)
    let atrScore := jmulq (normalize avgATR (1/100) (6/100)) (6/10)
    let hvals := fpHistVals bars
    let histPart : JNum × String :=
      if 0 < hvals.length then
        let avgHist := hvals.foldl (· + ·) (0 : ℚ) / (hvals.length : ℚ)
        (jmulq (normalize (.num avgHist) 0 (3/10)) (4/10),
          if avgHist < 1/10 then "weak momentum"
          else if avgHist < 2/10 then "moderate momentum" else "strong momentum")
      else (.num 0, "momentum unavailable")
    let atrDesc :=
      if jlt avgATR (2/100) then "low range"
      else if jlt avgATR (4/100) then "moderate range" else "high range"
    ⟨jclamp (jround (jadd atrScore histPart.1)) 0 100,
      atrDesc ++ " (" ++ fmtFixed 1 (jmulq avgATR 100) ++ "% ATR); " ++ histPart.2⟩

/-- The `volume / volumeMA` terms over bars where both are present and
`volumeMA > 0`. A present `NaN` volume flows into the term (the source
checks only `!= null` there). -/
def volRatios (bars : List Bar) : List JNum :=
  bars.filterMap fun b =>
    match b.volume, b.volumeMA with
    | some v, some ma => if jgt ma 0 then some (jdiv v ma) else none
    | _, _ => none

/-- Mirrors `computeSensors(bars)`: mean volume/MA level plus the fraction
of bars above the MA. -/
def computeSensors (bars : List Bar) : StatResult :=
  if bars.length < 5 then ⟨.num 50, "Insufficient data"⟩
  else
    let ratios := volRatios bars
    if ratios.length = 0 then ⟨.num 50, "No volume data"⟩
    else
      let avgR := jdiv (ratios.foldl jadd (.num 0)) (.num ratios.length)
      let abovePct : ℚ := ((ratios.filter fun r => jgt r 1).length : ℚ) / (ratios.length : ℚ)
      let score := jadd (jmulq (normalize avgR (7/10) (3/2)) (1/2)) (.num (abovePct * 50))
      let flowDesc :=
        if jlt avgR (9/10) then "below-average flow"
        else if jlt avgR (11/10) then "neutral flow" else "above-average flow"
      let consistDesc :=
        if abovePct < 2/5 then "inconsistent"
        else if abovePct < 3/5 then "mixed" else "consistent"
      ⟨jclamp (jround score) 0 100,
        flowDesc ++ " (" ++ fmtFixed 2 avgR ++ "x MA); " ++ consistDesc ++ " ("
          ++ toString (roundQ (abovePct * 100)) ++ "% above MA)"⟩

/-- The source signal test: `buy`/`sell` present, nonzero and finite. -/
def isSignal (v : JVal) : Bool :=
  match v with
  | some (.num q) => decide (q ≠ 0)
  | _ => false

/-- A bar carries a discrete buy or sell signal. -/
def hasSignal (b : Bar) : Bool := isSignal b.buy || isSignal b.sell

/-- Index of the first signal-carrying bar of a list (the source loop,
applied to the reversed bar list). -/
def signalScan : List Bar → Option ℕ
  | [] => none
  | b :: rest => if hasSignal b then some 0 else (signalScan rest).map (· + 1)

/-- Bars since the most recent signal, scanning newest to oldest; the full
length when no signal is found. -/
def barsSinceSignal (bars : List Bar) : ℕ :=
  match signalScan bars.reverse with
  | some j => j
  | none => bars.length

/-- Mirrors `computeFuel(bars)`: persistence since the last signal plus a
low-chop bonus over the aligned deviation sequence. -/
def computeFuel (bars : List Bar) : StatResult :=
  if bars.length < 5 then ⟨.num 50, "Insufficient data"⟩
  else
    let since := barsSinceSignal bars
    let persistenceScore := jmulq (normalize (.num since) 0 32) (6/10)
    let devs := kreDeviations bars
    let chopFlips := if 2 ≤ devs.length then countSignFlips (devs.map JNum.num) else 0
    let lowChopBonus := max 0 (40 - (chopFlips : ℚ) * 4)
    let persistDesc :=
      if since < 5 then "recent signal"
      else if since < 15 then "signal aging" else "mature trend"
    let chopDesc :=
      if chopFlips ≤ 5 then "steady path"
      else if chopFlips ≤ 10 then "some turbulence" else "choppy conditions"
    ⟨jclamp (jround (jadd persistenceScore (.num lowChopBonus))) 0 100,
      persistDesc ++ " (" ++ toString since ++ " bars ago); " ++ chopDesc⟩

/-- The thirty band levels of a bar in key order `A1`..`F5`, filtered to
present, finite values (the source checks `!= null && !isNaN` here). -/
def bandVals (b : Bar) : List ℚ :=
  ([b.A1, b.A2, b.A3, b.A4, b.A5, b.B1, b.B2, b.B3, b.B4, b.B5,
    b.C1, b.C2, b.C3, b.C4, b.C5, b.D1, b.D2, b.D3, b.D4, b.D5,
    b.E1, b.E2, b.E3, b.E4, b.E5, b.F1, b.F2, b.F3, b.F4, b.F5]).filterMap toQ?

/-- The histogram series used by `computeThreat`'s flip count: the source
filters only `v != null`, so a present `NaN` histogram stays in the list. -/
def threatHistSeries (bars : List Bar) : List JNum :=
  bars.filterMap fun b => b.histogram

/-- Mirrors `computeThreat(bars)`: band proximity on the latest bar,
histogram flip rate, and a firepower contribution. -/
def computeThreat (bars : List Bar) : StatResult :=
  if bars.length < 5 then ⟨.num 50, "Insufficient data"⟩
  else
    match bars.getLast? with
    | none => ⟨.num 50, "Insufficient data"⟩
    | some latest =>
      let bandProximityScore : ℚ :=
        match bandVals latest with
        | [] => 50
        | v :: vs =>
          let lower := vs.foldl min v
          let upper := vs.foldl max v
          if lower < upper then |(latest.close - lower) / (upper - lower) - 1/2| * 2 * 50
          else 50
      let flipRate := countSignFlips (threatHistSeries bars)
      let flipScore := jmulq (normalize (.num (flipRate : ℚ)) 0 ((bars.length : ℚ) / 2)) 30
      let firepower := (computeFirepower bars).value
      let volContribution := jmulq (jdiv firepower (.num 100)) 20
      let bandDesc :=
        if bandProximityScore < 20 then "mid-range"
        else if bandProximityScore < 35 then "approaching bands" else "near band extreme"
      let flipDesc :=
        if flipRate ≤ 5 then "stable regime"
        else if flipRate ≤ 12 then "some chop" else "high chop"
      let volDesc :=
        if jlt firepower 40 then "low"
        else if jlt firepower 70 then "moderate" else "elevated"
      ⟨jclamp (jround (jadd (jadd (.num bandProximityScore) flipScore) volContribution)) 0 100,
        bandDesc ++ "; histogram " ++ flipDesc ++ " (" ++ toString flipRate
          ++ " flips); volatility " ++ volDesc⟩

/-- Summary of the latest bar carried in a snapshot (the source converts
`time` to an ISO string; the raw epoch seconds are kept here). -/
structure LatestBarInfo where
  time : ℤ
  close : ℚ
  volume : JVal
deriving DecidableEq

/-- The per-stat rationale strings of a snapshot. -/
structure WhyMap where
  hull : String
  firepower : String
  sensors : String
  fuel : String
  threat : String
deriving DecidableEq

/-- The immutable environment snapshot assembled by `computeEnvironment`. -/
structure EnvSnapshot where
  ticker : String
  computedAt : String
  barsUsed : ℕ
  hull : JNum
  firepower : JNum
  sensors : JNum
  fuel : JNum
  threat : JNum
  why : WhyMap
  latestBar : LatestBarInfo
deriving DecidableEq

/-- Mirrors `computeEnvironment(ticker, lookback)` after the provider
fetch: the fetched bars and the current timestamp are explicit parameters
(the fetch and `new Date()` are the abstracted suspension points); fewer
than 5 bars is the insufficient-data failure. -/
def computeEnvironment (ticker nowIso : String) (bars : List Bar) : Except String EnvSnapshot :=
  if bars.length < 5 then
    .error ("Insufficient data for " ++ ticker ++ ": only " ++ toString bars.length ++ " bars")
  else
    match bars.getLast? with
    | none =>
      .error ("Insufficient data for " ++ ticker ++ ": only " ++ toString bars.length ++ " bars")
    | some latest =>
      let hull := computeHull bars
      let firepower := computeFirepower bars
      let sensors := computeSensors bars
      let fuel := computeFuel bars
      let threat := computeThreat bars
      .ok
        { ticker := ticker
          computedAt := nowIso
          barsUsed := bars.length
          hull := hull.value
          firepower := firepower.value
          sensors := sensors.value
          fuel := fuel.value
          threat := threat.value
          why := ⟨hull.why, firepower.why, sensors.why, fuel.why, threat.why⟩
          latestBar := ⟨latest.time, latest.close, latest.volume⟩ }

/-- Static metadata of one mission archetype (the `MISSION_TYPES` records;
`idealConditions` is a key/value list mirroring the per-type object). -/
structure MissionType where
  id : String
  name : String
  icon : String
  concept : String
  description : String
  teaches : String
  bettingOn : String
  durationBands : List String
  idealConditions : List (String × String)
  riskProfile : String
deriving DecidableEq

/-- The `RECON` catalog entry. -/
def reconMT : MissionType :=
  { id := "RECON", name := "RECON SWEEP", icon := "🛰️"
    concept := "Teaches regime/flow awareness"
    description := "Scout the sector for signal clarity and flow patterns. High sensor readings improve success."
    teaches := "How to read market flow and identify regime changes before committing capital."
    bettingOn := "Information quality and timing"
    durationBands := ["45m", "4H", "1D"]
    idealConditions := [("sensors", "high"), ("threat", "low-moderate")]
    riskProfile := "Low capital at risk, high information value" }

/-- The `CARGO` catalog entry. -/
def cargoMT : MissionType :=
  { id := "CARGO", name := "CARGO RUN", icon := "📦"
    concept := "Teaches theta/time cost"
    description := "Transport value across time. Stable hull and fuel reserves are critical for the journey."
    teaches := "How time decay (theta) erodes option value, and why patience has a cost."
    bettingOn := "Time passage without adverse movement"
    durationBands := ["1D", "1W", "2W"]
    idealConditions := [("hull", "high"), ("fuel", "high"), ("threat", "low")]
    riskProfile := "Moderate capital, success requires discipline" }

/-- The `ESCORT` catalog entry. -/
def escortMT : MissionType :=
  { id := "ESCORT", name := "ESCORT FORMATION", icon := "🛡️"
    concept := "Teaches structure/hedging reduces variance"
    description := "Protect the convoy with coordinated positioning. Spreads and hedges reduce damage exposure."
    teaches := "How structured positions (spreads) trade upside for reduced risk."
    bettingOn := "Defined risk/reward within a range"
    durationBands := ["1W", "2W", "1M"]
    idealConditions := [("hull", "moderate-high"), ("threat", "moderate")]
    riskProfile := "Capped loss, capped gain, high probability" }

/-- The `STRIKE` catalog entry. -/
def strikeMT : MissionType :=
  { id := "STRIKE", name := "DEEP SPACE STRIKE", icon := "⚔️"
    concept := "Teaches convexity/asymmetry sizing"
    description := "High-risk assault on distant targets. Requires firepower and directional conviction."
    teaches := "How to size asymmetric bets where small losses can lead to large gains."
    bettingOn := "Large directional movement"
    durationBands := ["1W", "2W", "1M"]
    idealConditions := [("firepower", "high"), ("hull", "directionally clear")]
    riskProfile := "High risk of total loss, potential for outsized returns" }

/-- The `HARVEST` catalog entry. -/
def harvestMT : MissionType :=
  { id := "HARVEST", name := "HARVEST OPERATION", icon := "🌾"
    concept := "Teaches range/mean reversion / premium intuition"
    description := "Extract value from stable zones. Low volatility and clear boundaries maximize yield."
    teaches := "How to profit from range-bound conditions by selling premium."
    bettingOn := "Price staying within a defined range"
    durationBands := ["45m", "1D", "1W"]
    idealConditions := [("firepower", "low-moderate"), ("threat", "low")]
    riskProfile := "High win rate, occasional large losses" }

/-- The catalog in `Object.entries` iteration order (insertion order of the
`MISSION_TYPES` literal): RECON, CARGO, ESCORT, STRIKE, HARVEST. -/
def missionTypesList : List (String × MissionType) :=
  [("RECON", reconMT), ("CARGO", cargoMT), ("ESCORT", escortMT),
    ("STRIKE", strikeMT), ("HARVEST", harvestMT)]

/-- The property keys every plain object literal inherits from
`Object.prototype`, paired with the JS `name` property of the inherited
value: eleven built-in methods (whose `name` is the key, except
`constructor`, whose value is the `Object` function named "Object") and
the `__proto__` accessor (whose value, `Object.prototype`, has no `name`
property — `undefined`, here `none`). Reading any of these keys yields a
truthy value. -/
def objectProtoKeys : List (String × Option String) :=
  [("constructor", some "Object"), ("hasOwnProperty", some "hasOwnProperty"),
    ("isPrototypeOf", some "isPrototypeOf"),
    ("propertyIsEnumerable", some "propertyIsEnumerable"),
    ("toLocaleString", some "toLocaleString"), ("toString", some "toString"),
    ("valueOf", some "valueOf"), ("__proto__", none),
    ("__defineGetter__", some "__defineGetter__"),
    ("__defineSetter__", some "__defineSetter__"),
    ("__lookupGetter__", some "__lookupGetter__"),
    ("__lookupSetter__", some "__lookupSetter__")]

/-- A truthy value of `MISSION_TYPES[type]`: either an own catalog record,
or a value inherited from `Object.prototype` carrying only its JS `name`
property (every other field read on it gives `undefined`). -/
inductive MissionTypeProp where
  | record (mt : MissionType)
  | protoVal (name : Option String)
deriving DecidableEq

/-- JS `missionType.name` of a looked-up value. -/
def propName : MissionTypeProp → Option String
  | .record mt => some mt.name
  | .protoVal nm => nm

/-- JS `missionType.icon` of a looked-up value (`undefined` on inherited
values). -/
def propIcon : MissionTypeProp → Option String
  | .record mt => some mt.icon
  | .protoVal _ => none

/-- JS `missionType.bettingOn` of a looked-up value (`undefined` on
inherited values). -/
def propBettingOn : MissionTypeProp → Option String
  | .record mt => some mt.bettingOn
  | .protoVal _ => none

/-- Catalog lookup `MISSION_TYPES[type]` under full JavaScript
property-access semantics: an own key hits the catalog record; otherwise
the prototype chain is consulted, so a key of `Object.prototype` hits the
truthy inherited value; any other key reads `undefined` (`none`). -/
def lookupMissionType (ty : String) : Option MissionTypeProp :=
  match missionTypesList.find? fun p => p.1 == ty with
  | some p => some (.record p.2)
  | none =>
    match objectProtoKeys.find? fun p => p.1 == ty with
    | some p => some (.protoVal p.2)
    | none => none

/-- The five numeric stats of a snapshot as read by the recommendation
engine (`env.hull`, ..., `env.threat`). -/
structure EnvStats where
  hull : ℚ
  firepower : ℚ
  sensors : ℚ
  fuel : ℚ
  threat : ℚ
deriving DecidableEq

/-- Mirrors `computeSuitability(missionType, env)`: the per-archetype
linear weighting, with default 50 for an unknown type. -/
def computeSuitability (missionType : String) (env : EnvStats) : ℚ :=
  match missionType with
  | "RECON" => env.sensors * (5/10) + (100 - env.threat) * (3/10) + env.fuel * (2/10)
  | "CARGO" => env.hull * (35/100) + env.fuel * (35/100) + (100 - env.threat) * (3/10)
  | "ESCORT" =>
    let threatPenalty := |env.threat - 45| * (5/10)
    env.hull * (5/10) + (50 - threatPenalty) + env.sensors * (2/10)
  | "STRIKE" => env.firepower * (5/10) + env.hull * (3/10) + (100 - env.threat) * (2/10)
  | "HARVEST" =>
    (100 - env.firepower) * (4/10) + (100 - env.threat) * (4/10) + env.sensors * (2/10)
  | _ => 50

/-- Mirrors `computeDifficulty(missionType, env)`: archetype-specific 1-3
star step functions; only RECON applies the sequential Sensors
adjustments. -/
def computeDifficulty (missionType : String) (env : EnvStats) : ℤ :=
  match missionType with
  | "RECON" =>
    let stars : ℤ := if 60 < env.threat then 3 else if 35 < env.threat then 2 else 1
    let stars := if 70 ≤ env.sensors ∧ 1 < stars then stars - 1 else stars
    let stars := if env.sensors ≤ 35 ∧ stars < 3 then stars + 1 else stars
    stars
  | "CARGO" =>
    let cargoRisk := env.threat * (5/10) + (100 - env.fuel) * (5/10)
    if 60 < cargoRisk then 3 else if 35 < cargoRisk then 2 else 1
  | "ESCORT" => if 70 < env.threat ∨ env.threat < 20 then 2 else 1
  | "STRIKE" => if 65 < env.threat then 3 else if 40 < env.threat then 2 else 1
  | "HARVEST" =>
    let harvestRisk := env.firepower * (5/10) + env.threat * (5/10)
    if 55 < harvestRisk then 3 else if 35 < harvestRisk then 2 else 1
  | _ => 2

/-- Mirrors `generateWhyNow(missionType, env)`: first matching rule wins,
with a generic fallback per archetype. -/
def generateWhyNow (missionType : String) (env : EnvStats) : String :=
  match missionType with
  | "RECON" =>
    if 60 ≤ env.sensors then "Flow signals are clear—good conditions for reconnaissance."
    else if env.threat < 40 then "Low threat environment allows for safe scouting."
    else "Standard conditions for sector reconnaissance."
  | "CARGO" =>
    if 60 ≤ env.hull ∧ 60 ≤ env.fuel then
      "Stable trend with high fuel reserves—ideal for time-based transport."
    else if env.threat < 35 then "Calm sector reduces journey risk."
    else "Conditions acceptable for cargo operations."
  | "ESCORT" =>
    if 30 ≤ env.threat ∧ env.threat ≤ 60 then
      "Moderate threat level—hedged formations add value here."
    else if 55 ≤ env.hull then "Solid hull integrity supports structured positioning."
    else "Standard escort formation conditions."
  | "STRIKE" =>
    if 65 ≤ env.firepower then "High volatility provides thrust for directional assault."
    else if 60 ≤ env.hull ∧ 50 ≤ env.firepower then
      "Clear trend direction with adequate firepower."
    else "Conditions support tactical strike operations."
  | "HARVEST" =>
    if env.firepower ≤ 40 ∧ env.threat ≤ 40 then
      "Low volatility, low threat—prime harvesting conditions."
    else if 55 ≤ env.sensors then "Clear flow signals help identify range boundaries."
    else "Range conditions may support premium collection."
  | _ => "Standard operating conditions."

/-- One recommendation entry: the catalog record spread plus the computed
scores. `suitability` is the rounded score; `recommended` is computed from
the raw (pre-rounding) score, exactly as in the source. -/
structure Recommendation where
  typeKey : String
  info : MissionType
  suitability : ℤ
  difficulty : ℤ
  whyNow : String
  recommended : Bool
deriving DecidableEq

/-- Builds the entry pushed for one catalog pair inside
`generateRecommendations`. -/
def mkRecommendation (key : String) (mt : MissionType) (env : EnvStats) : Recommendation :=
  { typeKey := key
    info := mt
    suitability := roundQ (computeSuitability key env)
    difficulty := computeDifficulty key env
    whyNow := generateWhyNow key env
    recommended := decide (55 ≤ computeSuitability key env) }

/-- The sort relation of `recommendations.sort((a, b) => b.suitability -
a.suitability)`: descending by the rounded suitability field. -/
def recLE (a b : Recommendation) : Prop := b.suitability ≤ a.suitability

instance : DecidableRel recLE := fun a b =>
  inferInstanceAs (Decidable (b.suitability ≤ a.suitability))

/-- Mirrors `generateRecommendations(env)`: one entry per catalog
archetype in iteration order, then a stable sort by suitability
descending (JS `Array.prototype.sort` is stable; `List.insertionSort` is
the stable sort with the same comparator). -/
def generateRecommendations (env : EnvStats) : List Recommendation :=
  List.insertionSort recLE (missionTypesList.map fun p => mkRecommendation p.1 p.2 env)

/-- Position of an archetype id in catalog iteration order. -/
def catIdx (key : String) : ℕ :=
  (["RECON", "CARGO", "ESCORT", "STRIKE", "HARVEST"]).findIdx (· == key)

/-- One timestamped mission log entry. -/
structure LogEntry where
  time : String
  event : String
  type : String
deriving DecidableEq

/-- A mission duration target. -/
structure Duration where
  unit : String
  targetBars : ℤ
deriving DecidableEq

/-- A mission thesis: primary text plus free-form notes. The primary text
is `options.thesis || missionType.bettingOn`, which is `undefined` (here
`none`) when both are absent — possible when the looked-up mission type is
a value inherited from `Object.prototype`. -/
structure Thesis where
  primary : Option String
  notes : String
deriving DecidableEq

/-- The mutable, persisted mission record. `typeName` and `icon` are
`missionType.name` / `missionType.icon`, which are `undefined` (here
`none`) when the looked-up type is a value inherited from
`Object.prototype` rather than a catalog record. -/
structure Mission where
  id : String
  createdAt : String
  ticker : String
  type : String
  typeName : Option String
  icon : Option String
  difficulty : ℤ
  duration : Duration
  thesis : Thesis
  env : Option EnvStats
  status : String
  startedAt : Option String
  completedAt : Option String
  outcome : Option String
  log : List LogEntry
deriving DecidableEq

/-- The `options` bag of `createMission`. A `some 0` difficulty is falsy in
JS (`options.difficulty || 2`), which the definition reproduces; `NaN`
difficulty is not modelled (no claim touches it). -/
structure MissionOptions where
  difficulty : Option ℤ := none
  duration : Option Duration := none
  thesis : Option String := none
  notes : Option String := none
  env : Option EnvStats := none
deriving DecidableEq

/-- Mirrors `createMission(ticker, type, options)`. The generated id
(`generateMissionId`, timestamp + random suffix) and the creation
timestamp are abstracted into the `newId`/`nowIso` parameters. The guard
`if (!missionType) throw` fires only when `MISSION_TYPES[type]` is falsy
(`undefined`): a truthy value inherited from `Object.prototype` slips
past it and produces a malformed mission. The function touches no
storage: an unknown type yields only the error, so no record can be
persisted. -/
def createMission (newId nowIso ticker ty : String) (options : MissionOptions) :
    Except String Mission :=
  match lookupMissionType ty with
  | none => .error ("Unknown mission type: " ++ ty)
  | some v =>
    .ok
      { id := newId
        createdAt := nowIso
        ticker := ticker.toUpper
        type := ty
        typeName := propName v
        icon := propIcon v
        difficulty := match options.difficulty with
          | some d => if d = 0 then 2 else d
          | none => 2
        duration := options.duration.getD ⟨"1D", 32⟩
        thesis :=
          ⟨match options.thesis with
            | some s => if s = "" then propBettingOn v else some s
            | none => propBettingOn v,
            (options.notes.getD "")⟩
        env := options.env
        status := "PLANNING"
        startedAt := none
        completedAt := none
        outcome := none
        log := [⟨nowIso, "Mission created", "system"⟩] }

/-- Appends `entry` to the log of the first mission whose id matches
(`missions.find(m => m.id === missionId)` followed by `push`); leaves the
collection untouched when no mission matches. -/
def appendLogFirst (mid : String) (entry : LogEntry) : List Mission → List Mission
  | [] => []
  | m :: rest =>
    if m.id = mid then { m with log := m.log ++ [entry] } :: rest
    else m :: appendLogFirst mid entry rest

/-- Mirrors `addMissionLog(missionId, event, type)` at the state level:
the persisted collection is the argument and the result (load,
read-modify-write, save). When no mission matches, the source skips the
save, so the persisted collection is unchanged — here, the input is
returned as is. -/
def addMissionLog (nowIso : String) (missions : List Mission) (missionId event ty : String) :
    List Mission :=
  appendLogFirst missionId ⟨nowIso, event, ty⟩ missions

/-- A JS number that is an actual (non-`NaN`) value. -/
def IsNum (v : JNum) : Prop := ∃ q, v = .num q

instance (v : JNum) : Decidable (IsNum v) :=
  match v with
  | .nan => .isFalse (by rintro ⟨q, h⟩; cases h)
  | .num q => .isTrue ⟨q, rfl⟩

/-- A well-formed market bar: positive close price, and no present-`NaN`
value in the fields the source reads without an `isNaN` guard (`high`,
`low`, `volume`). This is the reading of the "valid bar sequences" in the
spec needed for the arithmetic to stay `NaN`-free. -/
def ValidBar (b : Bar) : Prop :=
  0 < b.close ∧ b.high ≠ some .nan ∧ b.low ≠ some .nan ∧ b.volume ≠ some .nan

instance (b : Bar) : Decidable (ValidBar b) :=
  inferInstanceAs (Decidable (_ ∧ _ ∧ _ ∧ _))

/-- The descending-with-stable-ties order of a recommendation list: later
entries have strictly smaller rounded suitability, or equal suitability
and a later catalog position. -/
def strictDesc (a b : Recommendation) : Prop :=
  b.suitability < a.suitability ∨
    (b.suitability = a.suitability ∧ catIdx a.typeKey < catIdx b.typeKey)

/-- Demonstration bars: five plain valid bars. -/
def c1DemoBars : List Bar :=
  [{ close := 100 }, { close := 101 }, { close := 102 }, { close := 101 }, { close := 103 }]

/-- Demonstration input for the short-series behavior: four bars. -/
def c2FourBars : List Bar :=
  [{ close := 100 }, { close := 101 }, { close := 102 }, { close := 103 }]

/-- An environment whose RECON raw suitability is 54.5: sensors 99, threat
90, fuel 10 give 49.5 + 3 + 2 = 54.5, which rounds to 55 while the
threshold test on the raw value fails. -/
def envC3 : EnvStats := ⟨50, 50, 99, 10, 90⟩

/-- A neutral environment used to instantiate universally quantified
recommendation theorems. -/
def envC3w : EnvStats := ⟨50, 50, 50, 50, 50⟩

/-- An environment with all stats in bounds where ESCORT suitability is
100*0.5 + (50 - 0) + 100*0.2 = 120. -/
def envC5 : EnvStats := ⟨100, 50, 100, 50, 45⟩

/-- The C7 scenario: ten bars with flat KRE, close equal to G200, zero
histogram, volume equal to its MA, and no signals or bands. -/
def c7Bars : List Bar :=
  (List.range 10).map fun i =>
    { time := (i : ℤ), close := 100, volume := some (.num 1000),
      volumeMA := some (.num 1000), kernelRegression := some (.num 100),
      G200 := some (.num 100), histogram := some (.num 0) }

/-- A bar with the given histogram field and no other optional data. -/
def c8Bar (h : JVal) : Bar := { close := 100, histogram := h }

/-- Five bars whose second histogram value is a present `NaN`. -/
def c8BarsNan : List Bar :=
  [c8Bar (some (.num 1)), c8Bar (some .nan), c8Bar (some (.num 1)),
    c8Bar (some (.num 1)), c8Bar (some (.num 1))]

/-- The same five bars with the `NaN` histogram absent instead. -/
def c8BarsNull : List Bar :=
  [c8Bar (some (.num 1)), c8Bar none, c8Bar (some (.num 1)),
    c8Bar (some (.num 1)), c8Bar (some (.num 1))]

/-- The tail shared by the witness instantiation of the `NaN`-histogram
frame theorem. -/
def c8RestBars : List Bar :=
  [c8Bar (some (.num 1)), c8Bar (some (.num 1)), c8Bar (some (.num 1))]

/-- A demonstration mission record. -/
def missionDemoA : Mission :=
  { id := "MSN-A", createdAt := "2026-01-01T00:00:00Z", ticker := "RKLB",
    type := "RECON", typeName := some "RECON SWEEP", icon := some "🛰️", difficulty := 2,
    duration := ⟨"1D", 32⟩, thesis := ⟨some "Information quality and timing", ""⟩,
    env := none, status := "PLANNING", startedAt := none, completedAt := none,
    outcome := none, log := [⟨"2026-01-01T00:00:00Z", "Mission created", "system"⟩] }

/-- A second demonstration mission record. -/
def missionDemoB : Mission :=
  { id := "MSN-B", createdAt := "2026-01-02T00:00:00Z", ticker := "LUNR",
    type := "CARGO", typeName := some "CARGO RUN", icon := some "📦", difficulty := 1,
    duration := ⟨"1W", 5⟩, thesis := ⟨some "Time passage without adverse movement", "n"⟩,
    env := none, status := "PLANNING", startedAt := none, completedAt := none,
    outcome := none, log := [⟨"2026-01-02T00:00:00Z", "Mission created", "system"⟩] }

/-- The expected result of appending one staged log entry to
`missionDemoB`. -/
def missionDemoBLogged : Mission :=
  { missionDemoB with log := missionDemoB.log ++ [⟨"T1", "stage", "info"⟩] }

/-- Claim C2, counterexample: on a sequence of four bars (< 5), the stat
computators do not fail — each returns the sentinel result with value 50
and rationale "Insufficient data", so the caller does receive a stat
value, contrary to the claim. (`computeEnvironment` alone fails.) -/
theorem c2_short_series_counterexample :
    c2FourBars.length < 5 ∧
      computeHull c2FourBars = ⟨.num 50, "Insufficient data"⟩ ∧
      computeFirepower c2FourBars = ⟨.num 50, "Insufficient data"⟩ ∧
      computeSensors c2FourBars = ⟨.num 50, "Insufficient data"⟩ ∧
      computeFuel c2FourBars = ⟨.num 50, "Insufficient data"⟩ ∧
      computeThreat c2FourBars = ⟨.num 50, "Insufficient data"⟩ := by
  decide

/-- Claim C5: with hull = 100, sensors = 100, threat = 45 (all five stats
integers in [0,100]), the ESCORT raw suitability is 120 > 100 and the
returned ESCORT entry carries 120, rounded but not reduced to 100. -/
theorem c5_suitability_not_clamped :
    (0 ≤ envC5.hull ∧ envC5.hull ≤ 100) ∧ (0 ≤ envC5.firepower ∧ envC5.firepower ≤ 100) ∧
      (0 ≤ envC5.sensors ∧ envC5.sensors ≤ 100) ∧ (0 ≤ envC5.fuel ∧ envC5.fuel ≤ 100) ∧
      (0 ≤ envC5.threat ∧ envC5.threat ≤ 100) ∧
      computeSuitability "ESCORT" envC5 = 120 ∧ (100 : ℚ) < 120 ∧
      ((generateRecommendations envC5).find? fun e => e.typeKey == "ESCORT").map
          (fun e => e.suitability) =
        some 120 := by
  decide

/-- Claim C3, counterexample: in `envC3` the RECON raw suitability is
54.5, so the returned entry has suitability field 55 (rounded) yet
`recommended = false`, violating `recommended = (suitability >= 55)`
stated on the returned field. -/
theorem c3_threshold_counterexample :
    ((generateRecommendations envC3).find? fun e => e.typeKey == "RECON").map
        (fun e => (e.suitability, e.recommended)) =
      some (55, false) ∧
      ¬∀ e ∈ generateRecommendations envC3, (e.recommended = true ↔ 55 ≤ e.suitability) := by
  decide

/-- Claim C7, counterexample: on the ten-bar flat scenario (constant
histogram 0, volume = volumeMA, no signals, no bands, flat KRE, close =
G200), `computeHull` returns 70, not a value close to 40: the zero anchor
distance contributes the full 30 anchor score on top of the base 40. -/
theorem c7_flat_scenario_counterexample :
    (computeHull c7Bars).value = .num 70 ∧ ¬|(70 : ℚ) - 40| ≤ 2 := by
  decide

/-- Claim C7, amended: the flat scenario yields hull exactly 70 (base 40 +
anchor 30, zero slope contribution, zero chop penalty). -/
theorem c7_flat_scenario_hull70 :
    computeHull c7Bars =
      ⟨.num 70, "KRE slope flat; low chop (0 flips); close to G200"⟩ := by
  decide

/-- Claim C8, counterexample: `computeThreat`'s histogram flip count does
not skip `NaN` histogram values — it filters only on `!= null`. Replacing
the present-`NaN` histogram of the second bar by an absent one changes the
flip count from 2 to 0 and the threat value from 100 to 63, so the `NaN`
bar is not excluded from that feature. -/
theorem c8_nan_histogram_counterexample :
    (computeThreat c8BarsNan).value = .num 100 ∧
      (computeThreat c8BarsNull).value = .num 63 ∧
      (computeThreat c8BarsNan).value ≠ (computeThreat c8BarsNull).value := by
  decide

/-- Claim C2, amended: on fewer than 5 bars each stat computator returns
the sentinel `{ value: 50, why: "Insufficient data" }` (it does not fail),
while `computeEnvironment` fails with the insufficient-data error, so the
caller receives no snapshot. -/
theorem c2_short_series_behavior (ticker nowIso : String) (bars : List Bar)
    (h : bars.length < 5) :
    computeHull bars = ⟨.num 50, "Insufficient data"⟩ ∧
      computeFirepower bars = ⟨.num 50, "Insufficient data"⟩ ∧
      computeSensors bars = ⟨.num 50, "Insufficient data"⟩ ∧
      computeFuel bars = ⟨.num 50, "Insufficient data"⟩ ∧
      computeThreat bars = ⟨.num 50, "Insufficient data"⟩ ∧
      computeEnvironment ticker nowIso bars =
        .error ("Insufficient data for " ++ ticker ++ ": only "
          ++ toString bars.length ++ " bars") := by
  refine ⟨?_, ?_, ?_, ?_, ?_, ?_⟩
  · rw [computeHull, if_pos h]
  · rw [computeFirepower, if_pos h]
  · rw [computeSensors, if_pos h]
  · rw [computeFuel, if_pos h]
  · rw [computeThreat, if_pos h]
  · rw [computeEnvironment, if_pos h]

/-- Claim C2, witness: the amended behavior at the concrete four-bar
input. -/
theorem c2_short_series_behavior_witness :
    c2FourBars.length < 5 ∧
      (computeHull c2FourBars = ⟨.num 50, "Insufficient data"⟩ ∧
        computeFirepower c2FourBars = ⟨.num 50, "Insufficient data"⟩ ∧
        computeSensors c2FourBars = ⟨.num 50, "Insufficient data"⟩ ∧
        computeFuel c2FourBars = ⟨.num 50, "Insufficient data"⟩ ∧
        computeThreat c2FourBars = ⟨.num 50, "Insufficient data"⟩ ∧
        computeEnvironment "RKLB" "T0" c2FourBars =
          .error ("Insufficient data for " ++ "RKLB" ++ ": only "
            ++ toString c2FourBars.length ++ " bars")) :=
  ⟨by decide, c2_short_series_behavior "RKLB" "T0" c2FourBars (by decide)⟩

/-- A first-component search over a literal key/value list fails exactly
when the key is outside the key column. -/
theorem find?_fst_eq_none_iff {α : Type} (l : List (String × α)) (ty : String) :
    (l.find? fun p => p.1 == ty) = none ↔ ty ∉ l.map Prod.fst := by
  simp [List.find?_eq_none, List.mem_map, beq_iff_eq]
  constructor
  · intro h x hx
    exact h ty x hx rfl
  · intro h a b hab hab2
    subst hab2
    exact h b hab

/-- The JS lookup `MISSION_TYPES[type]` is falsy exactly when the type is
neither one of the five catalog ids nor a key inherited from
`Object.prototype`. -/
theorem lookupMissionType_eq_none_iff (ty : String) :
    lookupMissionType ty = none ↔
      ty ∉ (["RECON", "CARGO", "ESCORT", "STRIKE", "HARVEST"] : List String) ∧
        ty ∉ objectProtoKeys.map Prod.fst := by
  have h1 := find?_fst_eq_none_iff missionTypesList ty
  have h2 := find?_fst_eq_none_iff objectProtoKeys ty
  have hm : missionTypesList.map Prod.fst =
      ["RECON", "CARGO", "ESCORT", "STRIKE", "HARVEST"] := rfl
  rw [hm] at h1
  unfold lookupMissionType
  cases hf1 : missionTypesList.find? fun p => p.1 == ty with
  | some p =>
    rw [hf1] at h1
    constructor
    · intro h; cases h
    · rintro ⟨hc, _⟩
      exact absurd (h1.mpr hc) (by simp)
  | none =>
    rw [hf1] at h1
    cases hf2 : objectProtoKeys.find? fun p => p.1 == ty with
    | some p =>
      rw [hf2] at h2
      constructor
      · intro h; cases h
      · rintro ⟨_, hp⟩
        exact absurd (h2.mpr hp) (by simp)
    | none =>
      rw [hf2] at h2
      simp [h1.mp rfl, h2.mp rfl]

/-- Claim C9, counterexample: `'toString'` is not one of the five catalog
ids, yet `createMission('RKLB', 'toString')` does not throw — property
access on the `MISSION_TYPES` object literal consults the prototype
chain, so the truthy inherited `Object.prototype.toString` slips past the
`if (!missionType) throw` guard and a malformed mission is returned
(`typeName` is the inherited function's name, `icon` is `undefined`). -/
theorem c9_prototype_chain_counterexample :
    ("toString" ∉ (["RECON", "CARGO", "ESCORT", "STRIKE", "HARVEST"] : List String)) ∧
      (∀ e, createMission "MSN-1" "T0" "RKLB" "toString" {} ≠ .error e) ∧
      (createMission "MSN-1" "T0" "RKLB" "toString" {}).toOption.map
          (fun m => (m.status, m.typeName, m.icon)) =
        some ("PLANNING", some "toString", none) := by
  refine ⟨by decide, ?_, by decide⟩
  intro e he
  rw [createMission] at he
  rw [show lookupMissionType "toString" = some (.protoVal (some "toString")) from rfl] at he
  cases he

/-- Claim C9, amended: `createMission` throws the unknown-mission-type
error exactly when `MISSION_TYPES[type]` is falsy — the type is neither
one of the five catalog ids nor an `Object.prototype` key (for the
latter, the truthy inherited value escapes the guard and a malformed
mission is built); having no store access, it persists nothing on
failure; and whenever it does not throw, the mission starts in PLANNING,
difficulty defaults to 2, duration defaults to 1D/32 bars, and the log
holds exactly the one system "Mission created" entry. -/
theorem c9_create_mission_contract (newId nowIso ticker ty : String)
    (options : MissionOptions) :
    ((∃ e, createMission newId nowIso ticker ty options = .error e) ↔
      ty ∉ (["RECON", "CARGO", "ESCORT", "STRIKE", "HARVEST"] : List String) ∧
        ty ∉ objectProtoKeys.map Prod.fst) ∧
      ∀ m, createMission newId nowIso ticker ty options = .ok m →
        m.status = "PLANNING" ∧
          (options.difficulty = none → m.difficulty = 2) ∧
          (options.duration = none → m.duration = ⟨"1D", 32⟩) ∧
          m.log = [⟨nowIso, "Mission created", "system"⟩] := by
  rcases hl : lookupMissionType ty with _ | v
  · have hmem := (lookupMissionType_eq_none_iff ty).mp hl
    refine ⟨⟨fun _ => hmem, fun _ => ⟨"Unknown mission type: " ++ ty, ?_⟩⟩, ?_⟩
    · rw [createMission, hl]
    · intro m hm
      rw [createMission, hl] at hm
      exact absurd hm (by simp)
  · have hmem : ¬(ty ∉ (["RECON", "CARGO", "ESCORT", "STRIKE", "HARVEST"] : List String) ∧
        ty ∉ objectProtoKeys.map Prod.fst) := by
      intro hno
      rw [← lookupMissionType_eq_none_iff] at hno
      rw [hno] at hl
      cases hl
    constructor
    · constructor
      · rintro ⟨e, he⟩
        rw [createMission, hl] at he
        cases he
      · intro hno
        exact absurd hno hmem
    · intro m hm
      rw [createMission, hl] at hm
      cases hm
      refine ⟨rfl, fun hd => ?_, fun hdur => ?_, rfl⟩
      · simp [hd]
      · simp [hdur]

/-- Claim C9, witness: the fully unknown type WARP fails; the known type
STRIKE yields the PLANNING defaults and the single system log entry. -/
theorem c9_create_mission_contract_witness :
    ("WARP" ∉ (["RECON", "CARGO", "ESCORT", "STRIKE", "HARVEST"] : List String) ∧
        "WARP" ∉ objectProtoKeys.map Prod.fst) ∧
      (∃ e, createMission "MSN-1" "T0" "rklb" "WARP" {} = .error e) ∧
      ∀ m, createMission "MSN-1" "T0" "rklb" "STRIKE" {} = .ok m →
        m.status = "PLANNING" ∧
          (({} : MissionOptions).difficulty = none → m.difficulty = 2) ∧
          (({} : MissionOptions).duration = none → m.duration = ⟨"1D", 32⟩) ∧
          m.log = [⟨"T0", "Mission created", "system"⟩] :=
  ⟨by decide,
    (c9_create_mission_contract "MSN-1" "T0" "rklb" "WARP" {}).1.mpr (by decide),
    (c9_create_mission_contract "MSN-1" "T0" "rklb" "STRIKE" {}).2⟩

/-- When no mission id matches, the append loop returns the collection
unchanged. -/
theorem appendLogFirst_not_found (mid : String) (entry : LogEntry) :
    ∀ l : List Mission, (∀ m ∈ l, m.id ≠ mid) → appendLogFirst mid entry l = l
  | [], _ => rfl
  | m :: rest, h => by
    have hm : m.id ≠ mid := h m (List.mem_cons_self m rest)
    rw [appendLogFirst, if_neg hm,
      appendLogFirst_not_found mid entry rest fun x hx => h x (List.mem_cons_of_mem m hx)]

/-- The append loop updates exactly the first matching mission. -/
theorem appendLogFirst_found (mid : String) (entry : LogEntry) (m : Mission)
    (hm : m.id = mid) :
    ∀ (pre post : List Mission), (∀ x ∈ pre, x.id ≠ mid) →
      appendLogFirst mid entry (pre ++ m :: post) =
        pre ++ { m with log := m.log ++ [entry] } :: post
  | [], _, _ => by
    rw [List.nil_append, appendLogFirst, if_pos hm, List.nil_append]
  | x :: pre, post, h => by
    have hx : x.id ≠ mid := h x (List.mem_cons_self x pre)
    rw [List.cons_append, appendLogFirst, if_neg hx,
      appendLogFirst_found mid entry m hm pre post fun z hz => h z (List.mem_cons_of_mem x hz),
      List.cons_append]

/-- Claim C10: `addMissionLog` leaves the persisted collection unchanged
when no mission has the given id (the source performs no save), and
otherwise appends exactly one timestamped entry to the first matching
mission's log while every other mission is returned unchanged. -/
theorem c10_add_mission_log_frame (nowIso : String) (missions : List Mission)
    (mid ev ty : String) :
    ((∀ m ∈ missions, m.id ≠ mid) → addMissionLog nowIso missions mid ev ty = missions) ∧
      ∀ pre m post, missions = pre ++ m :: post → (∀ x ∈ pre, x.id ≠ mid) → m.id = mid →
        addMissionLog nowIso missions mid ev ty =
          pre ++ { m with log := m.log ++ [⟨nowIso, ev, ty⟩] } :: post := by
  constructor
  · intro h
    exact appendLogFirst_not_found mid ⟨nowIso, ev, ty⟩ missions h
  · intro pre m post hsplit hpre hm
    subst hsplit
    exact appendLogFirst_found mid ⟨nowIso, ev, ty⟩ m hm pre post hpre

/-- Claim C10, witness: on a two-mission store, logging against the id of
the second mission appends one entry there and leaves the first mission
untouched; logging against an absent id changes nothing. -/
theorem c10_add_mission_log_frame_witness :
    addMissionLog "T1" [missionDemoA, missionDemoB] "MSN-B" "stage" "info" =
        [missionDemoA, missionDemoBLogged] ∧
      addMissionLog "T1" [missionDemoA, missionDemoB] "MSN-X" "stage" "info" =
        [missionDemoA, missionDemoB] := by
  constructor
  · exact
      (c10_add_mission_log_frame "T1" [missionDemoA, missionDemoB] "MSN-B" "stage" "info").2
        [missionDemoA] missionDemoB [] rfl (by decide) rfl
  · exact
      (c10_add_mission_log_frame "T1" [missionDemoA, missionDemoB] "MSN-X" "stage" "info").1
        (by decide)

/-- Claim C3, amended: every returned entry satisfies `recommended =
(raw suitability >= 55)`, where the raw suitability is the pre-rounding
`computeSuitability` of the entry's own type; the entry's `suitability`
field is that raw value rounded, so an entry whose field rounds up to 55
can carry `recommended = false`. -/
theorem c3_threshold_raw_suitability (env : EnvStats) :
    ∀ e ∈ generateRecommendations env,
      (e.recommended = true ↔ 55 ≤ computeSuitability e.typeKey env) ∧
        e.suitability = roundQ (computeSuitability e.typeKey env) := by
  intro e he
  rw [generateRecommendations] at he
  have he2 := (List.perm_insertionSort recLE
    (missionTypesList.map fun p => mkRecommendation p.1 p.2 env)).mem_iff.mp he
  simp only [missionTypesList, List.map_cons, List.map_nil, List.mem_cons,
    List.not_mem_nil, or_false] at he2
  rcases he2 with rfl | rfl | rfl | rfl | rfl <;>
    simp [mkRecommendation, decide_eq_true_iff]

/-- Claim C3, witness: the amended law instantiated at the RECON entry of
a neutral environment. -/
theorem c3_threshold_raw_suitability_witness :
    mkRecommendation "RECON" reconMT envC3w ∈ generateRecommendations envC3w ∧
      (((mkRecommendation "RECON" reconMT envC3w).recommended = true ↔
          55 ≤ computeSuitability (mkRecommendation "RECON" reconMT envC3w).typeKey envC3w) ∧
        (mkRecommendation "RECON" reconMT envC3w).suitability =
          roundQ (computeSuitability (mkRecommendation "RECON" reconMT envC3w).typeKey envC3w)) :=
  ⟨by decide, c3_threshold_raw_suitability envC3w _ (by decide)⟩

/-- Inserting an entry whose catalog position is before everything in an
already stably-descending list keeps the list stably descending. -/
theorem orderedInsert_strictDesc {x : Recommendation} {l : List Recommendation}
    (hl : l.Pairwise strictDesc) (hx : ∀ y ∈ l, catIdx x.typeKey < catIdx y.typeKey) :
    (List.orderedInsert recLE x l).Pairwise strictDesc := by
  induction l with
  | nil => simp [List.orderedInsert]
  | cons y ys ih =>
    rw [List.orderedInsert]
    by_cases hxy : recLE x y
    · rw [if_pos hxy]
      refine List.Pairwise.cons ?_ hl
      intro z hz
      rcases List.mem_cons.mp hz with rfl | hz2
      · rcases lt_or_eq_of_le hxy with hlt | heq
        · exact Or.inl hlt
        · exact Or.inr ⟨heq, hx z (List.mem_cons_self z ys)⟩
      · rcases List.rel_of_pairwise_cons hl hz2 with hlt | ⟨heq, _⟩
        · exact Or.inl (lt_of_lt_of_le hlt hxy)
        · rcases lt_or_eq_of_le hxy with hlt2 | heq2
          · exact Or.inl (heq ▸ hlt2)
          · exact Or.inr ⟨heq.trans heq2, hx z (List.mem_cons_of_mem y hz2)⟩
    · rw [if_neg hxy]
      have hyx : x.suitability < y.suitability := not_le.mp hxy
      refine List.Pairwise.cons ?_
        (ih (List.Pairwise.of_cons hl) fun z hz => hx z (List.mem_cons_of_mem y hz))
      intro w hw
      rcases (List.mem_orderedInsert recLE).mp hw with rfl | hw2
      · exact Or.inl hyx
      · exact List.rel_of_pairwise_cons hl hw2

/-- A stable insertion sort by descending suitability of a list whose
catalog positions strictly increase is stably descending. -/
theorem insertionSort_strictDesc :
    ∀ l : List Recommendation,
      l.Pairwise (fun a b => catIdx a.typeKey < catIdx b.typeKey) →
        (List.insertionSort recLE l).Pairwise strictDesc
  | [], _ => by simp
  | x :: xs, h => by
    rw [List.insertionSort]
    refine orderedInsert_strictDesc (insertionSort_strictDesc xs (List.Pairwise.of_cons h)) ?_
    intro y hy
    exact List.rel_of_pairwise_cons h ((List.perm_insertionSort recLE xs).mem_iff.mp hy)

/-- Claim C4: `generateRecommendations` returns exactly 5 entries, one per
catalog archetype, sorted by the rounded suitability field in descending
order, with ties kept in catalog iteration order (RECON, CARGO, ESCORT,
STRIKE, HARVEST) — stated as the pairwise `strictDesc` relation. -/
theorem c4_recommendations_sorted (env : EnvStats) :
    (generateRecommendations env).length = 5 ∧
      ((generateRecommendations env).map fun e => e.typeKey).Perm
        ["RECON", "CARGO", "ESCORT", "STRIKE", "HARVEST"] ∧
      (generateRecommendations env).Pairwise strictDesc := by
  refine ⟨?_, ?_, ?_⟩
  · rw [generateRecommendations,
      (List.perm_insertionSort recLE (missionTypesList.map
        fun p => mkRecommendation p.1 p.2 env)).length_eq]
    rfl
  · rw [generateRecommendations]
    have hp := (List.perm_insertionSort recLE (missionTypesList.map
      fun p => mkRecommendation p.1 p.2 env)).map fun e => e.typeKey
    exact hp.trans (by rfl)
  · rw [generateRecommendations]
    apply insertionSort_strictDesc
    rw [List.pairwise_map]
    show List.Pairwise (fun a b : String × MissionType => catIdx a.1 < catIdx b.1)
      missionTypesList
    decide

/-- Closed form of RECON difficulty when Sensors is at or above the
easing threshold 70. -/
theorem recon_difficulty_high_sensors (h fp s f t : ℚ) (hs : 70 ≤ s) :
    computeDifficulty "RECON" ⟨h, fp, s, f, t⟩ = if 60 < t then 2 else 1 := by
  have h1 : ¬ s ≤ 35 := by linarith
  by_cases h60 : 60 < t
  · simp [computeDifficulty, h60, hs, h1]
  · by_cases h35 : 35 < t
    · simp [computeDifficulty, h60, h35, hs, h1]
    · simp [computeDifficulty, h60, h35, hs, h1]

/-- Closed form of RECON difficulty when Sensors is at or below the
worsening threshold 35. -/
theorem recon_difficulty_low_sensors (h fp s f t : ℚ) (hs : s ≤ 35) :
    computeDifficulty "RECON" ⟨h, fp, s, f, t⟩ = if 35 < t then 3 else 2 := by
  have h1 : ¬ 70 ≤ s := by linarith
  by_cases h60 : 60 < t
  · have h35 : 35 < t := by linarith
    simp [computeDifficulty, h60, h35, hs, h1]
  · by_cases h35 : 35 < t
    · simp [computeDifficulty, h60, h35, hs, h1]
    · simp [computeDifficulty, h60, h35, hs, h1]

/-- Claim C6: every difficulty rating is in {1,2,3}; for a fixed Threat,
moving Sensors from any value ≤ 35 to any value ≥ 70 strictly decreases
the RECON difficulty (the floor-at-1 alternative of the claim never even
fires); and no other catalog archetype's difficulty depends on Sensors. -/
theorem c6_recon_difficulty_laws :
    (∀ (ty : String) (env : EnvStats),
        computeDifficulty ty env = 1 ∨ computeDifficulty ty env = 2 ∨
          computeDifficulty ty env = 3) ∧
      (∀ (h fp f t s₁ s₂ : ℚ), s₁ ≤ 35 → 70 ≤ s₂ →
        computeDifficulty "RECON" ⟨h, fp, s₂, f, t⟩ <
            computeDifficulty "RECON" ⟨h, fp, s₁, f, t⟩ ∨
          (computeDifficulty "RECON" ⟨h, fp, s₂, f, t⟩ = 1 ∧
            computeDifficulty "RECON" ⟨h, fp, s₁, f, t⟩ = 1)) ∧
      ∀ (h fp f t x y : ℚ),
        computeDifficulty "CARGO" ⟨h, fp, x, f, t⟩ =
            computeDifficulty "CARGO" ⟨h, fp, y, f, t⟩ ∧
          computeDifficulty "ESCORT" ⟨h, fp, x, f, t⟩ =
            computeDifficulty "ESCORT" ⟨h, fp, y, f, t⟩ ∧
          computeDifficulty "STRIKE" ⟨h, fp, x, f, t⟩ =
            computeDifficulty "STRIKE" ⟨h, fp, y, f, t⟩ ∧
          computeDifficulty "HARVEST" ⟨h, fp, x, f, t⟩ =
            computeDifficulty "HARVEST" ⟨h, fp, y, f, t⟩ := by
  refine ⟨?_, ?_, ?_⟩
  · intro ty env
    unfold computeDifficulty
    split
    · by_cases h60 : 60 < env.threat <;> by_cases h35 : 35 < env.threat <;>
        by_cases hs70 : 70 ≤ env.sensors <;> by_cases hs35 : env.sensors ≤ 35 <;>
          simp [h60, h35, hs70, hs35]
    · simp only []
      split_ifs <;> omega
    · split_ifs <;> omega
    · split_ifs <;> omega
    · simp only []
      split_ifs <;> omega
    · omega
  · intro h fp f t s₁ s₂ hs1 hs2
    rw [recon_difficulty_high_sensors h fp s₂ f t hs2,
      recon_difficulty_low_sensors h fp s₁ f t hs1]
    by_cases h60 : 60 < t
    · have h35 : 35 < t := by linarith
      exact Or.inl (by simp [h60, h35])
    · by_cases h35 : 35 < t
      · exact Or.inl (by simp [h60, h35])
      · exact Or.inl (by simp [h60, h35])
  · intro h fp f t x y
    exact ⟨rfl, rfl, rfl, rfl⟩

/-- Claim C6, witness: the strict decrease instantiated at Sensors 30
versus 70 with Threat 50, plus a membership instance. -/
theorem c6_recon_difficulty_laws_witness :
    ((30 : ℚ) ≤ 35 ∧ (70 : ℚ) ≤ 70) ∧
      (computeDifficulty "RECON" ⟨50, 50, 70, 50, 50⟩ <
          computeDifficulty "RECON" ⟨50, 50, 30, 50, 50⟩ ∨
        (computeDifficulty "RECON" ⟨50, 50, 70, 50, 50⟩ = 1 ∧
          computeDifficulty "RECON" ⟨50, 50, 30, 50, 50⟩ = 1)) :=
  ⟨by decide, c6_recon_difficulty_laws.2.1 50 50 50 50 30 70 (by decide) (by decide)⟩

/-- Addition of two actual numbers is an actual number. -/
theorem isNum_jadd {a b : JNum} (ha : IsNum a) (hb : IsNum b) : IsNum (jadd a b) := by
  rcases ha with ⟨p, rfl⟩
  rcases hb with ⟨q, rfl⟩
  exact ⟨p + q, rfl⟩

/-- Division of an actual number by a nonzero actual number is an actual
number. -/
theorem isNum_jdiv {a : JNum} {q : ℚ} (ha : IsNum a) (hq : q ≠ 0) :
    IsNum (jdiv a (.num q)) := by
  rcases ha with ⟨p, rfl⟩
  exact ⟨p / q, by simp [jdiv, hq]⟩

/-- Constant multiples of an actual number are actual numbers. -/
theorem isNum_jmulq {a : JNum} (ha : IsNum a) (c : ℚ) : IsNum (jmulq a c) := by
  rcases ha with ⟨p, rfl⟩
  exact ⟨p * c, rfl⟩

/-- `normalize` of an actual number is an actual number. -/
theorem isNum_normalize {v : JNum} (hv : IsNum v) (lo hi : ℚ) :
    IsNum (normalize v lo hi) := by
  rcases hv with ⟨p, rfl⟩
  rw [normalize]
  split
  · exact ⟨50, rfl⟩
  · rename_i hne
    have hd : hi - lo ≠ 0 := sub_ne_zero.mpr hne
    refine ⟨max 0 (min 100 ((p - lo) / (hi - lo) * 100)), ?_⟩
    simp [jsub, jdiv, jmulq, jmin, jmax, hd]

/-- Folding `jadd` over actual numbers from an actual start stays an
actual number. -/
theorem isNum_foldl_jadd :
    ∀ (l : List JNum), (∀ x ∈ l, IsNum x) → ∀ init : JNum, IsNum init →
      IsNum (l.foldl jadd init)
  | [], _, _, hi => hi
  | x :: xs, h, init, hi => by
    rw [List.foldl_cons]
    exact isNum_foldl_jadd xs (fun y hy => h y (List.mem_cons_of_mem x hy)) _
      (isNum_jadd hi (h x (List.mem_cons_self x xs)))

/-- Rounding then clamping an actual number to [0,100] yields an integer
in [0,100]. -/
theorem jclamp_jround_int {v : JNum} (hv : IsNum v) :
    ∃ k : ℤ, jclamp (jround v) 0 100 = .num (k : ℚ) ∧ 0 ≤ k ∧ k ≤ 100 := by
  rcases hv with ⟨q, rfl⟩
  refine ⟨max 0 (min 100 (roundQ q)), ?_, le_max_left 0 _, ?_⟩
  · have : ((max 0 (min 100 (roundQ q)) : ℤ) : ℚ) =
        max 0 (min 100 ((roundQ q : ℤ) : ℚ)) := by
      push_cast
      rfl
    simp [jclamp, jround, jmin, jmax, this]
  · have := min_le_left (100 : ℤ) (roundQ q)
    omega

/-- The hull stat is always an integer in [0,100] (no `NaN` can enter its
arithmetic: `close` is required and every KRE/G200 read is guarded). -/
theorem computeHull_bounds (bars : List Bar) :
    ∃ k : ℤ, (computeHull bars).value = .num (k : ℚ) ∧ 0 ≤ k ∧ k ≤ 100 := by
  rw [computeHull]
  split
  · exact ⟨50, rfl, by omega, by omega⟩
  · split
    · exact ⟨50, rfl, by omega, by omega⟩
    · exact jclamp_jround_int ⟨_, rfl⟩

/-- Under valid bars, every ATR term is an actual number. -/
theorem atrTerms_isNum {bars : List Bar} (hv : ∀ b ∈ bars, ValidBar b) :
    ∀ x ∈ atrTerms bars, IsNum x := by
  intro x hx
  rcases List.mem_filterMap.mp hx with ⟨b, hb, hfb⟩
  rcases hv b hb with ⟨hc, hh, hlo, _⟩
  cases hhi : b.high with
  | none => rw [hhi] at hfb; cases hfb
  | some hi =>
    cases hlow : b.low with
    | none => rw [hhi, hlow] at hfb; cases hfb
    | some lo =>
      rw [hhi, hlow] at hfb
      dsimp only at hfb
      by_cases hc0 : b.close ≠ 0
      · rw [if_pos hc0] at hfb
        cases hfb
        cases hi with
        | nan => exact absurd hhi hh
        | num ph =>
          cases lo with
          | nan => exact absurd hlow hlo
          | num pl => exact isNum_jdiv ⟨ph - pl, rfl⟩ hc0
      · rw [if_neg hc0] at hfb
        cases hfb

/-- Under valid bars, every volume ratio term is an actual number. -/
theorem volRatios_isNum {bars : List Bar} (hv : ∀ b ∈ bars, ValidBar b) :
    ∀ x ∈ volRatios bars, IsNum x := by
  intro x hx
  rcases List.mem_filterMap.mp hx with ⟨b, hb, hfb⟩
  rcases hv b hb with ⟨_, _, _, hvol⟩
  cases hvo : b.volume with
  | none => rw [hvo] at hfb; cases hfb
  | some v =>
    cases hma : b.volumeMA with
    | none => rw [hvo, hma] at hfb; cases hfb
    | some ma =>
      rw [hvo, hma] at hfb
      dsimp only at hfb
      cases ma with
      | nan => simp [jgt] at hfb
      | num pm =>
        by_cases hpm : (0 : ℚ) < pm
        · rw [if_pos (by simp [jgt, hpm])] at hfb
          cases hfb
          cases v with
          | nan => exact absurd hvo hvol
          | num pv => exact isNum_jdiv ⟨pv, rfl⟩ (ne_of_gt hpm)
        · rw [if_neg (by simp [jgt, hpm])] at hfb
          cases hfb

/-- The firepower stat is an integer in [0,100] on valid bars. -/
theorem computeFirepower_bounds {bars : List Bar} (hv : ∀ b ∈ bars, ValidBar b) :
    ∃ k : ℤ, (computeFirepower bars).value = .num (k : ℚ) ∧ 0 ≤ k ∧ k ≤ 100 := by
  rw [computeFirepower]
  split
  · exact ⟨50, rfl, by omega, by omega⟩
  · dsimp only
    refine jclamp_jround_int (isNum_jadd ?_ ?_)
    · refine isNum_jmulq (isNum_normalize ?_ _ _) _
      split
      · rename_i hlen
        exact isNum_jdiv
          (isNum_foldl_jadd _ (atrTerms_isNum hv) _ ⟨0, rfl⟩)
          (by exact_mod_cast Nat.pos_iff_ne_zero.mp hlen)
      · exact ⟨3/100, rfl⟩
    · split
      · dsimp only
        exact isNum_jmulq (isNum_normalize ⟨_, rfl⟩ _ _) _
      · exact ⟨0, rfl⟩

/-- The sensors stat is an integer in [0,100] on valid bars. -/
theorem computeSensors_bounds {bars : List Bar} (hv : ∀ b ∈ bars, ValidBar b) :
    ∃ k : ℤ, (computeSensors bars).value = .num (k : ℚ) ∧ 0 ≤ k ∧ k ≤ 100 := by
  rw [computeSensors]
  split
  · exact ⟨50, rfl, by omega, by omega⟩
  · dsimp only
    split
    · exact ⟨50, rfl, by omega, by omega⟩
    · rename_i hlen
      refine jclamp_jround_int (isNum_jadd ?_ ⟨_, rfl⟩)
      refine isNum_jmulq (isNum_normalize ?_ _ _) _
      exact isNum_jdiv
        (isNum_foldl_jadd _ (volRatios_isNum hv) _ ⟨0, rfl⟩)
        (by exact_mod_cast hlen)

/-- The fuel stat is always an integer in [0,100]. -/
theorem computeFuel_bounds (bars : List Bar) :
    ∃ k : ℤ, (computeFuel bars).value = .num (k : ℚ) ∧ 0 ≤ k ∧ k ≤ 100 := by
  rw [computeFuel]
  split
  · exact ⟨50, rfl, by omega, by omega⟩
  · dsimp only
    exact jclamp_jround_int
      (isNum_jadd (isNum_jmulq (isNum_normalize ⟨_, rfl⟩ _ _) _) ⟨_, rfl⟩)

/-- The threat stat is an integer in [0,100] on valid bars. -/
theorem computeThreat_bounds {bars : List Bar} (hv : ∀ b ∈ bars, ValidBar b) :
    ∃ k : ℤ, (computeThreat bars).value = .num (k : ℚ) ∧ 0 ≤ k ∧ k ≤ 100 := by
  rw [computeThreat]
  split
  · exact ⟨50, rfl, by omega, by omega⟩
  · split
    · exact ⟨50, rfl, by omega, by omega⟩
    · dsimp only
      refine jclamp_jround_int
        (isNum_jadd (isNum_jadd ⟨_, rfl⟩ (isNum_jmulq (isNum_normalize ⟨_, rfl⟩ _ _) _)) ?_)
      rcases computeFirepower_bounds hv with ⟨k, hk, _, _⟩
      rw [hk]
      exact isNum_jmulq (isNum_jdiv ⟨_, rfl⟩ (by norm_num)) _

/-- Claim C1: on any sequence of at least 5 valid bars, each of the five
stat computators returns a value that is an integer in [0,100]. -/
theorem c1_stat_values_int_bounded (bars : List Bar) (_hlen : 5 ≤ bars.length)
    (hv : ∀ b ∈ bars, ValidBar b) :
    (∃ k : ℤ, (computeHull bars).value = .num (k : ℚ) ∧ 0 ≤ k ∧ k ≤ 100) ∧
      (∃ k : ℤ, (computeFirepower bars).value = .num (k : ℚ) ∧ 0 ≤ k ∧ k ≤ 100) ∧
      (∃ k : ℤ, (computeSensors bars).value = .num (k : ℚ) ∧ 0 ≤ k ∧ k ≤ 100) ∧
      (∃ k : ℤ, (computeFuel bars).value = .num (k : ℚ) ∧ 0 ≤ k ∧ k ≤ 100) ∧
      ∃ k : ℤ, (computeThreat bars).value = .num (k : ℚ) ∧ 0 ≤ k ∧ k ≤ 100 :=
  ⟨computeHull_bounds bars, computeFirepower_bounds hv, computeSensors_bounds hv,
    computeFuel_bounds bars, computeThreat_bounds hv⟩

/-- Claim C1, witness: the bounds at a concrete five-bar valid input. -/
theorem c1_stat_values_int_bounded_witness :
    (5 ≤ c1DemoBars.length ∧ ∀ b ∈ c1DemoBars, ValidBar b) ∧
      ((∃ k : ℤ, (computeHull c1DemoBars).value = .num (k : ℚ) ∧ 0 ≤ k ∧ k ≤ 100) ∧
        (∃ k : ℤ, (computeFirepower c1DemoBars).value = .num (k : ℚ) ∧ 0 ≤ k ∧ k ≤ 100) ∧
        (∃ k : ℤ, (computeSensors c1DemoBars).value = .num (k : ℚ) ∧ 0 ≤ k ∧ k ≤ 100) ∧
        (∃ k : ℤ, (computeFuel c1DemoBars).value = .num (k : ℚ) ∧ 0 ≤ k ∧ k ≤ 100) ∧
        ∃ k : ℤ, (computeThreat c1DemoBars).value = .num (k : ℚ) ∧ 0 ≤ k ∧ k ≤ 100) :=
  ⟨⟨by decide, by decide⟩, c1_stat_values_int_bounded c1DemoBars (by decide) (by decide)⟩

/-- Erasing a bar's histogram leaves the KRE series unchanged. -/
theorem kreSeries_hist_none (pre post : List Bar) (b : Bar) :
    kreSeries (pre ++ { b with histogram := none } :: post) =
      kreSeries (pre ++ b :: post) := by
  unfold kreSeries
  rw [List.filterMap_append, List.filterMap_append, List.filterMap_cons, List.filterMap_cons]

/-- Erasing a bar's histogram leaves the deviation series unchanged. -/
theorem kreDeviations_hist_none (pre post : List Bar) (b : Bar) :
    kreDeviations (pre ++ { b with histogram := none } :: post) =
      kreDeviations (pre ++ b :: post) := by
  unfold kreDeviations
  rw [List.filterMap_append, List.filterMap_append, List.filterMap_cons, List.filterMap_cons]

/-- Erasing a bar's histogram leaves the ATR terms unchanged. -/
theorem atrTerms_hist_none (pre post : List Bar) (b : Bar) :
    atrTerms (pre ++ { b with histogram := none } :: post) =
      atrTerms (pre ++ b :: post) := by
  unfold atrTerms
  rw [List.filterMap_append, List.filterMap_append, List.filterMap_cons, List.filterMap_cons]

/-- Erasing a bar's histogram leaves the volume ratios unchanged. -/
theorem volRatios_hist_none (pre post : List Bar) (b : Bar) :
    volRatios (pre ++ { b with histogram := none } :: post) =
      volRatios (pre ++ b :: post) := by
  unfold volRatios
  rw [List.filterMap_append, List.filterMap_append, List.filterMap_cons, List.filterMap_cons]

/-- Replacing a present-`NaN` histogram by an absent one leaves
firepower's guarded `|histogram|` series unchanged (both are dropped by
the `!= null && !isNaN` filter). -/
theorem fpHistVals_hist_nan (pre post : List Bar) (b : Bar)
    (hb : b.histogram = some .nan) :
    fpHistVals (pre ++ { b with histogram := none } :: post) =
      fpHistVals (pre ++ b :: post) := by
  unfold fpHistVals
  rw [List.filterMap_append, List.filterMap_append, List.filterMap_cons, List.filterMap_cons]
  dsimp only
  rw [hb]
  rfl

/-- Erasing a bar's histogram leaves the latest close unchanged. -/
theorem latestClose?_hist_none (pre post : List Bar) (b : Bar) :
    latestClose? (pre ++ { b with histogram := none } :: post) =
      latestClose? (pre ++ b :: post) := by
  unfold latestClose?
  rw [List.getLast?_append_cons, List.getLast?_append_cons]
  cases post with
  | nil => rfl
  | cons c cs => rw [List.getLast?_cons_cons, List.getLast?_cons_cons]

/-- The G200 scan only reads the `G200` field of the middle bar. -/
theorem g200Scan_congr_mid (x y : Bar) (hxy : toQ? x.G200 = toQ? y.G200) :
    ∀ l r : List Bar, g200Scan (l ++ x :: r) = g200Scan (l ++ y :: r)
  | [], r => by simp only [List.nil_append, g200Scan, hxy]
  | z :: l, r => by
    simp only [List.cons_append, g200Scan, List.append_eq]
    rw [g200Scan_congr_mid x y hxy l r]

/-- Erasing a bar's histogram leaves the latest valid G200 unchanged. -/
theorem latestG200?_hist_none (pre post : List Bar) (b : Bar) :
    latestG200? (pre ++ { b with histogram := none } :: post) =
      latestG200? (pre ++ b :: post) := by
  unfold latestG200?
  rw [List.reverse_append, List.reverse_append, List.reverse_cons, List.reverse_cons,
    List.append_assoc, List.append_assoc, List.singleton_append, List.singleton_append]
  exact g200Scan_congr_mid { b with histogram := none } b rfl post.reverse pre.reverse

/-- The signal scan only reads the `buy`/`sell` fields of the middle
bar. -/
theorem signalScan_congr_mid (x y : Bar) (hxy : hasSignal x = hasSignal y) :
    ∀ l r : List Bar, signalScan (l ++ x :: r) = signalScan (l ++ y :: r)
  | [], r => by simp only [List.nil_append, signalScan, hxy]
  | z :: l, r => by
    simp only [List.cons_append, signalScan, List.append_eq]
    rw [signalScan_congr_mid x y hxy l r]

/-- Erasing a bar's histogram leaves the bars-since-signal count
unchanged. -/
theorem barsSinceSignal_hist_none (pre post : List Bar) (b : Bar) :
    barsSinceSignal (pre ++ { b with histogram := none } :: post) =
      barsSinceSignal (pre ++ b :: post) := by
  have hs : signalScan ((pre ++ { b with histogram := none } :: post).reverse) =
      signalScan ((pre ++ b :: post).reverse) := by
    rw [List.reverse_append, List.reverse_append, List.reverse_cons, List.reverse_cons,
      List.append_assoc, List.append_assoc, List.singleton_append, List.singleton_append]
    exact signalScan_congr_mid { b with histogram := none } b rfl post.reverse pre.reverse
  have hlen : (pre ++ { b with histogram := none } :: post).length =
      (pre ++ b :: post).length := by
    simp
  unfold barsSinceSignal
  rw [hs, hlen]

/-- Hull ignores a bar's histogram entirely. -/
theorem computeHull_hist_congr (pre post : List Bar) (b : Bar) :
    computeHull (pre ++ { b with histogram := none } :: post) =
      computeHull (pre ++ b :: post) := by
  have h1 : (pre ++ { b with histogram := none } :: post).length =
      (pre ++ b :: post).length := by simp
  unfold computeHull
  rw [h1, kreSeries_hist_none pre post b, kreDeviations_hist_none pre post b,
    latestClose?_hist_none pre post b, latestG200?_hist_none pre post b]

/-- Firepower treats a present-`NaN` histogram exactly like an absent
one (the PATCHED v1.1 `NaN` guard). -/
theorem computeFirepower_hist_nan (pre post : List Bar) (b : Bar)
    (hb : b.histogram = some .nan) :
    computeFirepower (pre ++ { b with histogram := none } :: post) =
      computeFirepower (pre ++ b :: post) := by
  have h1 : (pre ++ { b with histogram := none } :: post).length =
      (pre ++ b :: post).length := by simp
  unfold computeFirepower
  rw [h1, atrTerms_hist_none pre post b, fpHistVals_hist_nan pre post b hb]

/-- Sensors ignores a bar's histogram entirely. -/
theorem computeSensors_hist_congr (pre post : List Bar) (b : Bar) :
    computeSensors (pre ++ { b with histogram := none } :: post) =
      computeSensors (pre ++ b :: post) := by
  have h1 : (pre ++ { b with histogram := none } :: post).length =
      (pre ++ b :: post).length := by simp
  unfold computeSensors
  rw [h1, volRatios_hist_none pre post b]

/-- Fuel ignores a bar's histogram entirely. -/
theorem computeFuel_hist_congr (pre post : List Bar) (b : Bar) :
    computeFuel (pre ++ { b with histogram := none } :: post) =
      computeFuel (pre ++ b :: post) := by
  have h1 : (pre ++ { b with histogram := none } :: post).length =
      (pre ++ b :: post).length := by simp
  unfold computeFuel
  rw [h1, barsSinceSignal_hist_none pre post b, kreDeviations_hist_none pre post b]

/-- Claim C8, amended: the computators are total functions (they never
throw), and a present-`NaN` histogram is excluded exactly like an absent
one by Hull, Firepower, Sensors and Fuel; `computeThreat` alone filters
its flip series only on `!= null`, so the `NaN` stays in (see the
counterexample). -/
theorem c8_nan_histogram_frame (pre post : List Bar) (b : Bar)
    (hb : b.histogram = some .nan) :
    computeHull (pre ++ { b with histogram := none } :: post) =
        computeHull (pre ++ b :: post) ∧
      computeFirepower (pre ++ { b with histogram := none } :: post) =
        computeFirepower (pre ++ b :: post) ∧
      computeSensors (pre ++ { b with histogram := none } :: post) =
        computeSensors (pre ++ b :: post) ∧
      computeFuel (pre ++ { b with histogram := none } :: post) =
        computeFuel (pre ++ b :: post) :=
  ⟨computeHull_hist_congr pre post b, computeFirepower_hist_nan pre post b hb,
    computeSensors_hist_congr pre post b, computeFuel_hist_congr pre post b⟩

/-- Claim C8, witness: the frame property at the concrete five-bar input
of the counterexample. -/
theorem c8_nan_histogram_frame_witness :
    (c8Bar (some .nan)).histogram = some JNum.nan ∧
      (computeHull ([c8Bar (some (.num 1))] ++
            { c8Bar (some .nan) with histogram := none } :: c8RestBars) =
          computeHull ([c8Bar (some (.num 1))] ++ c8Bar (some .nan) :: c8RestBars) ∧
        computeFirepower ([c8Bar (some (.num 1))] ++
            { c8Bar (some .nan) with histogram := none } :: c8RestBars) =
          computeFirepower ([c8Bar (some (.num 1))] ++ c8Bar (some .nan) :: c8RestBars) ∧
        computeSensors ([c8Bar (some (.num 1))] ++
            { c8Bar (some .nan) with histogram := none } :: c8RestBars) =
          computeSensors ([c8Bar (some (.num 1))] ++ c8Bar (some .nan) :: c8RestBars) ∧
        computeFuel ([c8Bar (some (.num 1))] ++
            { c8Bar (some .nan) with histogram := none } :: c8RestBars) =
          computeFuel ([c8Bar (some (.num 1))] ++ c8Bar (some .nan) :: c8RestBars)) :=
  ⟨rfl, c8_nan_histogram_frame [c8Bar (some (.num 1))] c8RestBars (c8Bar (some .nan)) rfl⟩

end MissionSystem
